import Mathlib

/-!
Verification of the evaluation pipeline of
`Complete_Project.py` (textbook-quality assessment app): format-aware text
extraction, the Gemini evaluator client, the `/analyze` orchestrator, and the
`/user_history` query, shallowly embedded in Lean.

Python strings are modelled as Lean `String`s operated on through their
underlying `List Char` (Python's `len`, slicing and `str.strip` act on code
points); raw uploaded bytes are modelled as `List Nat`; the external PDF /
DOCX parsers are modelled by supplying their parse results (`RawFile`);
MongoDB documents are modelled as typed records and JSON values by `JsonVal`
(with `JsonVal.null` also standing for Python `None`, as `json.loads` maps
JSON `null` to `None`).
-/

namespace TBQA

/-! ### Python-string primitives (code-point semantics) -/

/-- Python `len(s)`: number of code points. -/
def pyLen (s : String) : Nat := s.data.length

/-- Python `s[:n]`: first `n` code points. -/
def pyTake (s : String) (n : Nat) : String := ⟨s.data.take n⟩

/-- Python `s.lower()` (ASCII model, matching `Char.toLower`). -/
def pyLower (s : String) : String := ⟨s.data.map Char.toLower⟩

/-- Python `s.startswith(p)`. -/
def pyStartsWith (s p : String) : Bool := p.data.isPrefixOf s.data

/-- Python `s.endswith(p)`. -/
def pyEndsWith (s p : String) : Bool := p.data.isSuffixOf s.data

/-- Python `s.strip()`: drop leading and trailing whitespace. -/
def pyStrip (s : String) : String :=
  ⟨((s.data.dropWhile Char.isWhitespace).reverse.dropWhile Char.isWhitespace).reverse⟩

/-- Python `sep.join(l)`. -/
def pyJoin (sep : String) : List String → String
  | [] => ""
  | [s] => s
  | s :: rest => s ++ sep ++ pyJoin sep rest

/-! ### JSON values / Python dicts

`JsonVal.null` plays the role of both JSON `null` and Python `None`
(`json.loads` identifies them).  A parsed JSON object is an association
list with first-key-wins lookup, mirroring a Python dict read-only. -/

inductive JsonVal where
  | num (lit : String)   -- a JSON number, carrying its `str()` rendering
  | str (s : String)
  | null
  deriving DecidableEq, Repr

abbrev JsonObj := List (String × JsonVal)

/-- Python `d[k]` presence / `d.get(k, default)` evaluates via `lookup`. -/
def jLookup (o : JsonObj) (k : String) : Option JsonVal :=
  o.lookup k

/-- Python `d.get(k, default)`. -/
def jGetD (o : JsonObj) (k : String) (d : JsonVal) : JsonVal :=
  (jLookup o k).getD d

/-- Python `"error" in d`. -/
def jHasKey (o : JsonObj) (k : String) : Bool :=
  (jLookup o k).isSome

/-! ### Content Extractor (`extract_text_from_file_bytes`) -/

/-- What `page.extract_text()` does for one PDF page: either raises, or
returns `None` / a string (`returns none` models a `None` return). -/
inductive PageResult where
  | raises
  | returns (text : Option String)
  deriving DecidableEq, Repr

/-- The parse results that the external libraries would produce from the
uploaded raw bytes: the PDF page list (`PdfReader(...).pages` with each
page's `extract_text()` behaviour), the DOCX paragraph texts, and the
result of `raw_bytes.decode("utf-8", errors="ignore")`. -/
structure RawFile where
  asPdfPages : List PageResult
  asDocxParas : List String
  asTxt : String
  deriving Repr

/-- The PDF page loop:
```
for page in reader.pages:
    try:
        pages_text.append(page.extract_text() or "")
    except Exception:
        continue
```
A raising page appends nothing (`continue`); a `None`/empty return appends
`""` (Python `or`). -/
def pdfPagesText : List PageResult → List String
  | [] => []
  | PageResult.raises :: rest => pdfPagesText rest
  | PageResult.returns o :: rest => o.getD "" :: pdfPagesText rest

/-- The text produced before post-processing, per filename branch
(`none` = falls to the `else: raise ValueError(...)` branch). -/
def naturalText (filename_lower : String) (raw : RawFile) : Option String :=
  if pyEndsWith filename_lower ".pdf" then
    some (pyJoin "\n" (pdfPagesText raw.asPdfPages))
  else if pyEndsWith filename_lower ".docx" then
    some (pyJoin "\n" raw.asDocxParas)
  else if pyEndsWith filename_lower ".txt" then
    some raw.asTxt
  else
    none

def unsupportedMsg : String :=
  "Unsupported document type. Please upload PDF, DOCX, or TXT."

def emptyMsg : String :=
  "No readable text found in the uploaded file."

/-- Post-processing:
```
MAX_CHARS = 20000
if len(text) > MAX_CHARS: text = text[:MAX_CHARS]
if not text.strip(): raise ValueError("No readable text found ...")
return text
``` -/
def finishText (text : String) : Except String String :=
  let t := if pyLen text > 20000 then pyTake text 20000 else text
  if pyStrip t = "" then Except.error emptyMsg else Except.ok t

/-- `extract_text_from_file_bytes(filename, raw_bytes)`; a raised
`ValueError(msg)` is `Except.error msg`. -/
def extract_text_from_file_bytes (filename : String) (raw : RawFile) :
    Except String String :=
  match naturalText (pyLower filename) raw with
  | some text => finishText text
  | none => Except.error unsupportedMsg

/-! ### Evaluator Client (`evaluate_textbook_gemini`) -/

/-- One element of the `contents` list handed to `generate_content`. -/
inductive ContentPart where
  | textPart (s : String)
  | imagePart (data : List Nat) (mime : String)
  deriving DecidableEq, Repr

/-- The fixed instructional prompt. -/
def evalPrompt : String :=
  "You are an educational content quality reviewer. "
  ++ "You will be given either textual content or an image of textbook/reference book pages. "
  ++ "If an image is provided, read the text from the image first, then evaluate it.\n\n"
  ++ "Based only on the provided material (it may be partial), evaluate the content on:\n\n"
  ++ "1. Accuracy - Give a numerical score from 0 to 100 for factual correctness and "
  ++ "   alignment with standard knowledge in the field, and a short explanation.\n"
  ++ "2. Readability - Give a numerical score from 0 to 100 for clarity, structure, "
  ++ "   and ease of understanding, and a short explanation.\n"
  ++ "3. Consistency - Give a numerical score from 0 to 100 for internal consistency "
  ++ "   (terminology, writing conventions, tone, logical flow), and a short explanation.\n"
  ++ "4. Overall Rating - Give one overall quality rating on a 0 to 5 scale "
  ++ "   (you may use one decimal place, e.g., 4.2).\n\n"
  ++ "Return your answer strictly using the provided JSON schema, filling:\n"
  ++ "- accuracy_score (0-100), accuracy (text explanation)\n"
  ++ "- readability_score (0-100), readability (text explanation)\n"
  ++ "- consistency_score (0-100), consistency (text explanation)\n"
  ++ "- overall_rating (0-5, number)\n"
  ++ "- summary (2-4 sentences summary).\n"

/-- Python `image_mime or "image/jpeg"`. -/
def resolveMime (image_mime : Option String) : String :=
  match image_mime with
  | none => "image/jpeg"
  | some m => if m = "" then "image/jpeg" else m

/-- The `contents` list built by `evaluate_textbook_gemini`:
prompt, then the text block when non-blank, then the image part. -/
def build_contents (text_content : Option String) (image_bytes : Option (List Nat))
    (image_mime : Option String) : List ContentPart :=
  ContentPart.textPart evalPrompt ::
    ((match text_content with
      | some s => if s ≠ "" ∧ pyStrip s ≠ "" then [ContentPart.textPart s] else []
      | none => []) ++
     (match image_bytes with
      | some b => [ContentPart.imagePart b (resolveMime image_mime)]
      | none => []))

/-- What one call of `client.models.generate_content` + `json.loads` does:
either the body parses to a JSON object, or the call / parse raises. -/
inductive GeminiOutcome where
  | responds (obj : JsonObj)
  | raises (msg : String)

/-- External state the client depends on: whether the module-level `client`
was initialised, and what the one external invocation does for a given
request body. -/
structure GeminiEnv where
  clientInitialized : Bool
  outcome : List ContentPart → GeminiOutcome

def clientNotInitMsg : String :=
  "Analysis Error: Gemini Client not initialized. Set GEMINI_API_KEY correctly."

def noContentMsg : String := "No content to analyze."

def invocationFailedMsg (details : String) : String :=
  "Analysis Error: API call failed or returned invalid data. Details: " ++ details

/-- The `try: ... generate_content ... json.loads ... except` tail of the
client. -/
def invokeModel (env : GeminiEnv) (contents : List ContentPart) : JsonObj :=
  match env.outcome contents with
  | GeminiOutcome.responds obj => obj
  | GeminiOutcome.raises msg => [("error", JsonVal.str (invocationFailedMsg msg))]

/-- Python `(not text_content or not text_content.strip())`. -/
def textBlank : Option String → Bool
  | none => true
  | some s => s = "" || pyStrip s = ""

/-- `evaluate_textbook_gemini(text_content, image_bytes, image_mime)`;
always returns a dict (an error object or the parsed model output). -/
def evaluate_textbook_gemini (env : GeminiEnv) (text_content : Option String)
    (image_bytes : Option (List Nat)) (image_mime : Option String) : JsonObj :=
  if env.clientInitialized = false then
    [("error", JsonVal.str clientNotInitMsg)]
  else if textBlank text_content && image_bytes.isNone then
    [("error", JsonVal.str noContentMsg)]
  else
    invokeModel env (build_contents text_content image_bytes image_mime)

/-! ### Pipeline Orchestrator (`/analyze` route, `analyze()`) -/

/-- The MongoDB document inserted by `analyze` (`eval_doc`), with the
schema-typed fields the code writes. -/
structure EvalDoc where
  user_id : String
  username : String
  timestamp : Nat
  input_type : String
  file_id : Nat
  original_filename : String
  content_type : String
  accuracy_score : JsonVal
  readability_score : JsonVal
  consistency_score : JsonVal
  accuracy_text : JsonVal
  readability_text : JsonVal
  consistency_text : JsonVal
  overall_rating_value : JsonVal
  overall_rating : String
  summary : JsonVal
  full_extracted_text : Option String
  raw_evaluation : JsonObj
  deriving DecidableEq, Repr

/-- A JSON HTTP reply: body and status code. -/
structure HttpReply where
  body : JsonObj
  status : Nat
  deriving DecidableEq, Repr

/-- The arguments `analyze` passes to `evaluate_textbook_gemini`
(`text_content` is always a `str` there because of `text_content or ""`). -/
structure EvalCall where
  text_content : String
  image_bytes : Option (List Nat)
  image_mime : Option String
  deriving DecidableEq, Repr

/-- Observable outcome of one `/analyze` request: the HTTP reply, the
document persisted (if any), and the evaluator-client call made (if any). -/
structure AnalyzeOutcome where
  reply : HttpReply
  saved : Option EvalDoc
  evalCall : Option EvalCall
  deriving DecidableEq, Repr

/-- Request-independent collaborator state for one `/analyze` request:
session identity, clock, the GridFS id returned by `put`, the evaluator
environment, and whether `evaluations_collection.insert_one` raises. -/
structure AnalyzeEnv where
  user_id : String
  username : String
  timestamp : Nat
  file_id : Nat
  gemini : GeminiEnv
  insertRaises : Bool

/-- The uploaded file as `/analyze` sees it: `file.filename` (empty string
models a falsy filename), `file.content_type or ""`, the raw bytes, and the
external parsers' view of those bytes. -/
structure Upload where
  filename0 : String
  content_type0 : String
  fileBytes : List Nat
  raw : RawFile

/-- `filename = file.filename` with the camera-blob fallback:
a falsy filename becomes `"camera_capture.jpg"`. -/
def effectiveFilename (filename0 : String) : String :=
  if filename0 = "" then "camera_capture.jpg" else filename0

/-- The image/document classification:
`content_type.startswith("image/") or lower_name.endswith((".png", ".jpg",
".jpeg", ".webp", ".bmp", ".gif"))`. -/
def is_image (lower_name content_type : String) : Bool :=
  pyStartsWith content_type "image/"
    || (pyEndsWith lower_name ".png" || pyEndsWith lower_name ".jpg"
        || pyEndsWith lower_name ".jpeg" || pyEndsWith lower_name ".webp"
        || pyEndsWith lower_name ".bmp" || pyEndsWith lower_name ".gif")

/-- `overall_str` derivation in `analyze`:
`f"{v}/5"` when `isinstance(v, (int, float))`, else `str(v)` when not
`None`, else `"No rating"`. -/
def overallStr (v : JsonVal) : String :=
  match v with
  | JsonVal.num lit => lit ++ "/5"
  | JsonVal.str s => s
  | JsonVal.null => "No rating"

/-- The `eval_doc` dict built by `analyze` from a no-error
`evaluation_data`. -/
def mkEvalDoc (env : AnalyzeEnv) (filename content_type : String)
    (text_content : Option String) (image_bytes : Option (List Nat))
    (evaluation_data : JsonObj) : EvalDoc :=
  { user_id := env.user_id
    username := env.username
    timestamp := env.timestamp
    input_type := if image_bytes.isSome then "image" else "document"
    file_id := env.file_id
    original_filename := filename
    content_type := content_type
    accuracy_score := jGetD evaluation_data "accuracy_score" JsonVal.null
    readability_score := jGetD evaluation_data "readability_score" JsonVal.null
    consistency_score := jGetD evaluation_data "consistency_score" JsonVal.null
    accuracy_text := jGetD evaluation_data "accuracy" (JsonVal.str "")
    readability_text := jGetD evaluation_data "readability" (JsonVal.str "")
    consistency_text := jGetD evaluation_data "consistency" (JsonVal.str "")
    overall_rating_value := jGetD evaluation_data "overall_rating" JsonVal.null
    overall_rating := overallStr (jGetD evaluation_data "overall_rating" JsonVal.null)
    summary := jGetD evaluation_data "summary" (JsonVal.str "")
    full_extracted_text :=
      match text_content with
      | some t => if t = "" then none else some t
      | none => none
    raw_evaluation := evaluation_data }

/-- The success JSON body returned to the frontend (the eight
`evaluation_data.get(...)` projections). -/
def successBody (evaluation_data : JsonObj) : JsonObj :=
  [ ("accuracy_score", jGetD evaluation_data "accuracy_score" JsonVal.null)
  , ("accuracy", jGetD evaluation_data "accuracy" (JsonVal.str "AI analysis unavailable."))
  , ("readability_score", jGetD evaluation_data "readability_score" JsonVal.null)
  , ("readability", jGetD evaluation_data "readability" (JsonVal.str "AI analysis unavailable."))
  , ("consistency_score", jGetD evaluation_data "consistency_score" JsonVal.null)
  , ("consistency", jGetD evaluation_data "consistency" (JsonVal.str "AI analysis unavailable."))
  , ("overall_rating", jGetD evaluation_data "overall_rating" (JsonVal.str "AI analysis unavailable."))
  , ("summary", jGetD evaluation_data "summary" (JsonVal.str "AI analysis unavailable.")) ]

/-- The tail of `analyze` from the `evaluate_textbook_gemini` call on:
error gate, display derivation, best-effort insert, response body. -/
def analyzeWithPayload (env : AnalyzeEnv) (filename content_type : String)
    (text_content : Option String) (image_bytes : Option (List Nat))
    (image_mime : Option String) : AnalyzeOutcome :=
  if jHasKey
      (evaluate_textbook_gemini env.gemini (some (text_content.getD ""))
        image_bytes image_mime) "error" then
    { reply :=
        ⟨evaluate_textbook_gemini env.gemini (some (text_content.getD ""))
           image_bytes image_mime, 500⟩
      saved := none
      evalCall := some ⟨text_content.getD "", image_bytes, image_mime⟩ }
  else
    { reply :=
        ⟨successBody
           (evaluate_textbook_gemini env.gemini (some (text_content.getD ""))
             image_bytes image_mime), 200⟩
      saved :=
        if env.insertRaises then none
        else some (mkEvalDoc env filename content_type text_content image_bytes
          (evaluate_textbook_gemini env.gemini (some (text_content.getD ""))
            image_bytes image_mime))
      evalCall := some ⟨text_content.getD "", image_bytes, image_mime⟩ }

/-- The `/analyze` handler after the auth and file-presence guards:
classification, extraction (text branch) with `ValueError → 400`, then the
shared tail. -/
def analyze (env : AnalyzeEnv) (up : Upload) : AnalyzeOutcome :=
  let filename := effectiveFilename up.filename0
  let content_type := up.content_type0
  let lower_name := pyLower filename
  if is_image lower_name content_type then
    let image_mime :=
      if pyStartsWith content_type "image/" then content_type else "image/jpeg"
    analyzeWithPayload env filename content_type none (some up.fileBytes)
      (some image_mime)
  else
    match extract_text_from_file_bytes filename up.raw with
    | Except.error msg =>
        { reply := ⟨[("error", JsonVal.str msg)], 400⟩, saved := none
          evalCall := none }
    | Except.ok t =>
        analyzeWithPayload env filename content_type (some t) none none

/-! ### Evaluation Store query (`/user_history` route) -/

/-- One history entry as built by `user_history` (the four projected
fields; the `strftime` rendering of the timestamp is abstracted to the
timestamp value itself). -/
structure HistEntry where
  timestamp : Nat
  overall_rating : String
  summary : JsonVal
  original_filename : String
  deriving DecidableEq, Repr

/-- The projection applied to each document of the cursor. -/
def histProj (d : EvalDoc) : HistEntry :=
  { timestamp := d.timestamp
    overall_rating := d.overall_rating
    summary := d.summary
    original_filename := d.original_filename }

/-- Insert into a list kept sorted by descending timestamp. -/
def insertTsDesc (d : EvalDoc) : List EvalDoc → List EvalDoc
  | [] => [d]
  | e :: es =>
      if e.timestamp < d.timestamp then d :: e :: es else e :: insertTsDesc d es

/-- `sort("timestamp", -1)` on the matched documents. -/
def sortTsDesc (l : List EvalDoc) : List EvalDoc :=
  l.foldr insertTsDesc []

/-- `user_history`: `find({"user_id": uid}).sort("timestamp", -1).limit(50)`
then the four-field projection. -/
def user_history (store : List EvalDoc) (uid : String) : List HistEntry :=
  ((sortTsDesc (store.filter (fun d => d.user_id = uid))).take 50).map histProj

/-! ### Concrete collaborator instances used by witnesses and
counterexamples -/

/-- An evaluator whose one external call parses to the fixed object `o`. -/
def mkGeminiEnv (o : JsonObj) : GeminiEnv :=
  { clientInitialized := true, outcome := fun _ => GeminiOutcome.responds o }

/-- A seven-field evaluator response missing `summary`. -/
def objNoSummary : JsonObj :=
  [ ("accuracy_score", JsonVal.num "90"), ("accuracy", JsonVal.str "ok")
  , ("readability_score", JsonVal.num "80"), ("readability", JsonVal.str "ok")
  , ("consistency_score", JsonVal.num "85"), ("consistency", JsonVal.str "ok")
  , ("overall_rating", JsonVal.num "4.2") ]

/-- The full eight-field evaluator response of the spec's mocked-evaluator
scenario. -/
def objFull : JsonObj :=
  objNoSummary ++ [("summary", JsonVal.str "Good.")]

def envNoSummary : AnalyzeEnv :=
  { user_id := "u1", username := "alice", timestamp := 7, file_id := 3
    gemini := mkGeminiEnv objNoSummary, insertRaises := false }

def envFull : AnalyzeEnv :=
  { envNoSummary with gemini := mkGeminiEnv objFull }

/-- A `.txt` upload whose bytes decode to `"Hello"`. -/
def upHello : Upload :=
  { filename0 := "notes.txt", content_type0 := "text/plain", fileBytes := [72]
    raw := { asPdfPages := [], asDocxParas := [], asTxt := "Hello" } }

/-! ### Helper lemmas -/

theorem pyTake_of_le {s : String} {n : Nat} (h : pyLen s ≤ n) : pyTake s n = s := by
  unfold pyTake
  rw [List.take_of_length_le h]

theorem pyLen_pyTake (s : String) (n : Nat) : pyLen (pyTake s n) ≤ n := by
  simp [pyLen, pyTake]

/-- `finishText` always yields the 20000-char truncation, erring exactly
when its strip is empty. -/
theorem finishText_eq (text : String) :
    finishText text =
      (if pyStrip (pyTake text 20000) = "" then Except.error emptyMsg
       else Except.ok (pyTake text 20000)) := by
  unfold finishText
  by_cases h : pyLen text > 20000
  · simp [h]
  · have ht : pyTake text 20000 = text := pyTake_of_le (by omega)
    simp [h, ht]

theorem extract_ok_nonblank {fn : String} {raw : RawFile} {t : String}
    (h : extract_text_from_file_bytes fn raw = Except.ok t) :
    pyStrip t ≠ "" ∧ t ≠ "" := by
  unfold extract_text_from_file_bytes at h
  cases hn : naturalText (pyLower fn) raw with
  | none => rw [hn] at h; exact absurd h (by simp)
  | some text =>
      rw [hn] at h
      replace h : finishText text = Except.ok t := h
      rw [finishText_eq] at h
      by_cases hs : pyStrip (pyTake text 20000) = ""
      · rw [if_pos hs] at h; exact absurd h (by simp)
      · rw [if_neg hs] at h
        have ht : pyTake text 20000 = t := by
          simpa using h
        rw [ht] at hs
        refine ⟨hs, ?_⟩
        intro he
        exact hs (by simp [he, pyStrip])

/-! ### C3 — truncation and the EmptyContent condition -/

/-- C3: for every supported text format (the filename reaches one of the
three text branches, producing natural text `text`), the extractor returns
exactly the first 20,000 characters of `text` — hence always at most
20,000 characters — and fails with the `EmptyContent` message exactly when
that truncation strips to the empty string. -/
theorem extract_truncation_spec (fn : String) (raw : RawFile) (text : String)
    (h : naturalText (pyLower fn) raw = some text) :
    extract_text_from_file_bytes fn raw =
      (if pyStrip (pyTake text 20000) = "" then Except.error emptyMsg
       else Except.ok (pyTake text 20000))
    ∧ (∀ t, extract_text_from_file_bytes fn raw = Except.ok t → pyLen t ≤ 20000)
    ∧ emptyMsg = "No readable text found in the uploaded file." := by
  have he : extract_text_from_file_bytes fn raw = finishText text := by
    unfold extract_text_from_file_bytes
    rw [h]
  refine ⟨by rw [he, finishText_eq], ?_, rfl⟩
  intro t ht
  rw [he, finishText_eq] at ht
  by_cases hs : pyStrip (pyTake text 20000) = ""
  · rw [if_pos hs] at ht; exact absurd ht (by simp)
  · rw [if_neg hs] at ht
    have : pyTake text 20000 = t := by simpa using ht
    rw [← this]
    exact pyLen_pyTake text 20000

theorem extract_truncation_spec_witness :
    naturalText (pyLower "notes.txt") upHello.raw = some "Hello"
    ∧ extract_text_from_file_bytes "notes.txt" upHello.raw =
        (if pyStrip (pyTake "Hello" 20000) = "" then Except.error emptyMsg
         else Except.ok (pyTake "Hello" 20000)) :=
  ⟨by decide, (extract_truncation_spec "notes.txt" upHello.raw "Hello" (by decide)).1⟩

/-! ### C2 — PDF page loop: raising pages are skipped, not blanked -/

/-- One page's contribution to `pages_text` (`none` = no append). -/
def pageContribution : PageResult → Option String
  | PageResult.raises => none
  | PageResult.returns o => some (o.getD "")

/-- C2 (amended): a PDF page whose extraction raises is skipped entirely
(the `except` branch `continue`s without appending), while a page returning
`None` or text contributes `extract_text() or ""`; so the list of joined
segments is the contributions of the non-raising pages only, and its length
counts the non-raising pages.  The extractor joins exactly that list with
newlines before post-processing. -/
theorem pdfPagesText_skips_raising (pages : List PageResult) (fn : String)
    (raw : RawFile) (hpdf : pyEndsWith (pyLower fn) ".pdf" = true) :
    pdfPagesText pages = pages.filterMap pageContribution
    ∧ (pdfPagesText pages).length =
        pages.countP (fun r => (pageContribution r).isSome)
    ∧ extract_text_from_file_bytes fn raw =
        finishText (pyJoin "\n" (pdfPagesText raw.asPdfPages)) := by
  refine ⟨?_, ?_, ?_⟩
  · induction pages with
    | nil => rfl
    | cons p rest ih =>
        cases p with
        | raises => simp [pdfPagesText, pageContribution, ih]
        | returns o => simp [pdfPagesText, pageContribution, ih]
  · induction pages with
    | nil => rfl
    | cons p rest ih =>
        cases p with
        | raises => simp [pdfPagesText, pageContribution, List.countP_cons, ih]
        | returns o => simp [pdfPagesText, pageContribution, List.countP_cons, ih]
  · unfold extract_text_from_file_bytes naturalText
    rw [hpdf]
    simp

def rawTwoPages : RawFile :=
  { asPdfPages := [PageResult.raises, PageResult.returns (some "x")]
    asDocxParas := [], asTxt := "" }

/-- C2 counterexample: with a two-page PDF whose first page raises, only
one segment is produced (`["x"]`, joined to `"x"`), not the two segments
(`["", "x"]`, joined to `"\nx"`) the claim requires — the raising page
contributes nothing, and the number of segments is 1, not the number of
pages, 2. -/
theorem raising_page_skipped_cex :
    pdfPagesText rawTwoPages.asPdfPages = ["x"]
    ∧ (pdfPagesText rawTwoPages.asPdfPages).length = 1
    ∧ rawTwoPages.asPdfPages.length = 2
    ∧ extract_text_from_file_bytes "book.pdf" rawTwoPages = Except.ok "x"
    ∧ pyJoin "\n" ["", "x"] ≠ "x" :=
  ⟨rfl, rfl, rfl, rfl, by decide⟩

theorem pdfPagesText_skips_raising_witness :
    pyEndsWith (pyLower "book.pdf") ".pdf" = true
    ∧ pdfPagesText rawTwoPages.asPdfPages =
        rawTwoPages.asPdfPages.filterMap pageContribution :=
  ⟨by decide,
   (pdfPagesText_skips_raising rawTwoPages.asPdfPages "book.pdf" rawTwoPages
      (by decide)).1⟩

/-! ### Orchestrator lemmas -/

theorem analyzeWithPayload_evalCall (env : AnalyzeEnv) (fn ct : String)
    (tc : Option String) (ib : Option (List Nat)) (im : Option String) :
    (analyzeWithPayload env fn ct tc ib im).evalCall = some ⟨tc.getD "", ib, im⟩ := by
  unfold analyzeWithPayload
  by_cases h :
      jHasKey (evaluate_textbook_gemini env.gemini (some (tc.getD "")) ib im) "error" <;>
    simp [h]

theorem analyzeWithPayload_success (env : AnalyzeEnv) (fn ct : String)
    (tc : Option String) (ib : Option (List Nat)) (im : Option String)
    (h : jHasKey (evaluate_textbook_gemini env.gemini (some (tc.getD "")) ib im)
           "error" = false) :
    (analyzeWithPayload env fn ct tc ib im).reply.status = 200
    ∧ jHasKey (analyzeWithPayload env fn ct tc ib im).reply.body "error" = false
    ∧ (analyzeWithPayload env fn ct tc ib im).saved.isSome = !env.insertRaises := by
  unfold analyzeWithPayload
  simp only [h, Bool.false_eq_true, if_false]
  refine ⟨by trivial, by rfl, ?_⟩
  cases hir : env.insertRaises <;> simp [hir]

theorem analyzeWithPayload_saved (env : AnalyzeEnv) (fn ct : String)
    (tc : Option String) (ib : Option (List Nat)) (im : Option String)
    (d : EvalDoc) (h : (analyzeWithPayload env fn ct tc ib im).saved = some d) :
    d.overall_rating = overallStr (jGetD d.raw_evaluation "overall_rating" JsonVal.null)
    ∧ d.overall_rating_value = jGetD d.raw_evaluation "overall_rating" JsonVal.null := by
  unfold analyzeWithPayload at h
  by_cases he :
      jHasKey (evaluate_textbook_gemini env.gemini (some (tc.getD "")) ib im) "error"
  · simp only [he, if_true] at h
    exact absurd h (by simp)
  · rw [Bool.not_eq_true] at he
    simp only [he, Bool.false_eq_true, if_false] at h
    cases hir : env.insertRaises
    · simp only [hir, Bool.false_eq_true, if_false, Option.some.injEq] at h
      subst h
      exact ⟨rfl, rfl⟩
    · simp only [hir, if_true] at h
      exact absurd h (by simp)

theorem evaluate_responds {genv : GeminiEnv} {obj : JsonObj} (t : Option String)
    (ib : Option (List Nat)) (im : Option String)
    (hclient : genv.clientInitialized = true)
    (hout : ∀ c, genv.outcome c = GeminiOutcome.responds obj)
    (hguard : (textBlank t && ib.isNone) = false) :
    evaluate_textbook_gemini genv t ib im = obj := by
  unfold evaluate_textbook_gemini invokeModel
  simp [hclient, hguard, hout]

theorem jHasKey_eq_false_of_lookup_none {o : JsonObj} {k : String}
    (h : jLookup o k = none) : jHasKey o k = false := by
  simp [jHasKey, h]

theorem analyze_image (env : AnalyzeEnv) (up : Upload)
    (h : is_image (pyLower (effectiveFilename up.filename0)) up.content_type0 = true) :
    analyze env up =
      analyzeWithPayload env (effectiveFilename up.filename0) up.content_type0
        none (some up.fileBytes)
        (some (if pyStartsWith up.content_type0 "image/" then up.content_type0
               else "image/jpeg")) := by
  unfold analyze
  simp only [h, if_true]

theorem analyze_text_err (env : AnalyzeEnv) (up : Upload) (msg : String)
    (himg : is_image (pyLower (effectiveFilename up.filename0)) up.content_type0 = false)
    (hext : extract_text_from_file_bytes (effectiveFilename up.filename0) up.raw =
      Except.error msg) :
    analyze env up =
      { reply := ⟨[("error", JsonVal.str msg)], 400⟩, saved := none
        evalCall := none } := by
  unfold analyze
  simp only [himg, Bool.false_eq_true, if_false]
  rw [hext]

theorem analyze_text_ok (env : AnalyzeEnv) (up : Upload) (t : String)
    (himg : is_image (pyLower (effectiveFilename up.filename0)) up.content_type0 = false)
    (hext : extract_text_from_file_bytes (effectiveFilename up.filename0) up.raw =
      Except.ok t) :
    analyze env up =
      analyzeWithPayload env (effectiveFilename up.filename0) up.content_type0
        (some t) none none := by
  unfold analyze
  simp only [himg, Bool.false_eq_true, if_false]
  rw [hext]

theorem extract_congr {f' f : String} (raw : RawFile) (hl : pyLower f' = pyLower f) :
    extract_text_from_file_bytes f' raw = extract_text_from_file_bytes f raw := by
  unfold extract_text_from_file_bytes
  rw [hl]

/-! ### C1 — parsed JSON missing a required field is NOT rejected -/

/-- C1 counterexample: mock the evaluator to return a JSON object lacking
`summary` (`objNoSummary`).  Contrary to the claim, `analyze` reports no
error (HTTP 200, no `error` key in the body) and an `EvaluationRecord` IS
persisted — the client performs no schema validation on a response that
parses as JSON. -/
theorem missing_summary_not_rejected_cex :
    jLookup objNoSummary "summary" = none
    ∧ (analyze envNoSummary upHello).reply.status = 200
    ∧ (analyze envNoSummary upHello).reply.status ≠ 500
    ∧ jHasKey (analyze envNoSummary upHello).reply.body "error" = false
    ∧ (analyze envNoSummary upHello).saved.isSome = true := by
  decide

/-- C1 (amended): when the evaluator's response parses as a JSON object
with no `"error"` key — even one missing required `EvaluationSchema`
fields such as `summary` — the orchestrator returns an HTTP 200 success
reply with no error key, and persists an `EvaluationRecord` exactly when
the store insert does not raise; the `InvocationFailed` error is reported
only when the call (or JSON parse) raises, not on missing fields. -/
theorem parsedJson_noError_success_persists (env : AnalyzeEnv) (up : Upload)
    (obj : JsonObj)
    (hclient : env.gemini.clientInitialized = true)
    (hout : ∀ c, env.gemini.outcome c = GeminiOutcome.responds obj)
    (herr : jLookup obj "error" = none)
    (hreach : (analyze env up).evalCall.isSome = true) :
    (analyze env up).reply.status = 200
    ∧ jHasKey (analyze env up).reply.body "error" = false
    ∧ (analyze env up).saved.isSome = !env.insertRaises := by
  have hek := jHasKey_eq_false_of_lookup_none herr
  by_cases himg :
      is_image (pyLower (effectiveFilename up.filename0)) up.content_type0
  · rw [analyze_image env up himg]
    have h5 : jHasKey
        (evaluate_textbook_gemini env.gemini (some "")
          (some up.fileBytes)
          (some (if pyStartsWith up.content_type0 "image/" then up.content_type0
                 else "image/jpeg"))) "error" = false := by
      rw [evaluate_responds (some "") (some up.fileBytes)
        (some (if pyStartsWith up.content_type0 "image/" then up.content_type0
               else "image/jpeg")) hclient hout rfl]
      exact hek
    exact analyzeWithPayload_success env _ _ none (some up.fileBytes) _ h5
  · rw [Bool.not_eq_true] at himg
    cases hext :
        extract_text_from_file_bytes (effectiveFilename up.filename0) up.raw with
    | error msg =>
        rw [analyze_text_err env up msg himg hext] at hreach
        exact absurd hreach (by simp)
    | ok t =>
        rw [analyze_text_ok env up t himg hext]
        obtain ⟨hs, hne⟩ := extract_ok_nonblank hext
        have hguard : (textBlank (some t) && (none : Option (List Nat)).isNone) = false := by
          simp [textBlank, hs, hne]
        have h5 : jHasKey
            (evaluate_textbook_gemini env.gemini (some t)
              none none) "error" = false := by
          rw [evaluate_responds (some t) none none hclient hout hguard]
          exact hek
        exact analyzeWithPayload_success env _ _ (some t) none none h5

theorem parsedJson_noError_success_persists_witness :
    jLookup objNoSummary "summary" = none
    ∧ jLookup objNoSummary "error" = none
    ∧ ((analyze envNoSummary upHello).reply.status = 200
       ∧ jHasKey (analyze envNoSummary upHello).reply.body "error" = false
       ∧ (analyze envNoSummary upHello).saved.isSome = !envNoSummary.insertRaises) :=
  ⟨rfl, rfl,
   parsedJson_noError_success_persists envNoSummary upHello objNoSummary rfl
     (fun _ => rfl) rfl (by decide)⟩

/-! ### C4 — image/document classification -/

/-- C4: an upload (with its given, non-empty filename) is classified as an
image exactly when the declared MIME starts with `image/` or the lowered
filename ends in one of the six image suffixes; on the image branch the
evaluator is called with the raw bytes, no text, and the declared MIME
when it is an `image/` type (else `image/jpeg`), and the outcome is
independent of the document parsers (text extraction bypassed); on the
text branch no image is ever passed to the evaluator. -/
theorem image_classification_spec (env : AnalyzeEnv) (up : Upload)
    (h0 : up.filename0 ≠ "") :
    is_image (pyLower up.filename0) up.content_type0 =
        (pyStartsWith up.content_type0 "image/"
          || (pyEndsWith (pyLower up.filename0) ".png"
              || pyEndsWith (pyLower up.filename0) ".jpg"
              || pyEndsWith (pyLower up.filename0) ".jpeg"
              || pyEndsWith (pyLower up.filename0) ".webp"
              || pyEndsWith (pyLower up.filename0) ".bmp"
              || pyEndsWith (pyLower up.filename0) ".gif"))
    ∧ (is_image (pyLower up.filename0) up.content_type0 = true →
        (analyze env up).evalCall =
          some ⟨"", some up.fileBytes,
                some (if pyStartsWith up.content_type0 "image/" then up.content_type0
                      else "image/jpeg")⟩
        ∧ ∀ raw', analyze env { up with raw := raw' } = analyze env up)
    ∧ (is_image (pyLower up.filename0) up.content_type0 = false →
        ∀ c, (analyze env up).evalCall = some c →
          c.image_bytes = none ∧ c.image_mime = none) := by
  have heff : effectiveFilename up.filename0 = up.filename0 := if_neg h0
  refine ⟨rfl, ?_, ?_⟩
  · intro himg
    have himg' :
        is_image (pyLower (effectiveFilename up.filename0)) up.content_type0 = true := by
      rw [heff]; exact himg
    constructor
    · rw [analyze_image env up himg']
      exact analyzeWithPayload_evalCall env _ _ none (some up.fileBytes) _
    · intro raw'
      rw [analyze_image env { up with raw := raw' } himg', analyze_image env up himg']
  · intro himg c hc
    have himg' :
        is_image (pyLower (effectiveFilename up.filename0)) up.content_type0 = false := by
      rw [heff]; exact himg
    cases hext :
        extract_text_from_file_bytes (effectiveFilename up.filename0) up.raw with
    | error msg =>
        rw [analyze_text_err env up msg himg' hext] at hc
        exact absurd hc (by simp)
    | ok t =>
        rw [analyze_text_ok env up t himg' hext,
          analyzeWithPayload_evalCall env _ _ (some t) none none] at hc
        have : c = ⟨(some t).getD "", none, none⟩ := by
          exact (Option.some.injEq _ _ ▸ hc).symm
        rw [this]
        exact ⟨rfl, rfl⟩

/-- An upload named `cover.png` with a non-image declared MIME. -/
def upCover : Upload :=
  { filename0 := "cover.png", content_type0 := "application/octet-stream"
    fileBytes := [1, 2]
    raw := { asPdfPages := [], asDocxParas := [], asTxt := "" } }

theorem image_classification_spec_witness :
    (analyze envFull upCover).evalCall =
      some ⟨"", some [1, 2], some "image/jpeg"⟩ :=
  ((image_classification_spec envFull upCover (by decide)).2.1 (by decide)).1

/-! ### C7 — persistence is best-effort for the response -/

theorem analyzeWithPayload_reply_insensitive (env : AnalyzeEnv) (b : Bool)
    (fn ct : String) (tc : Option String) (ib : Option (List Nat))
    (im : Option String) :
    (analyzeWithPayload { env with insertRaises := b } fn ct tc ib im).reply =
      (analyzeWithPayload env fn ct tc ib im).reply := by
  unfold analyzeWithPayload
  by_cases h :
      jHasKey (evaluate_textbook_gemini env.gemini (some (tc.getD "")) ib im) "error" <;>
    simp [h]

/-- C7: the reply returned to the caller is identical whether or not the
`insert_one` save step raises — a persistence failure never changes the
already-computed response (same body, same status). -/
theorem save_failure_response_invariant (env : AnalyzeEnv) (up : Upload)
    (b₁ b₂ : Bool) :
    (analyze { env with insertRaises := b₁ } up).reply =
      (analyze { env with insertRaises := b₂ } up).reply := by
  by_cases himg :
      is_image (pyLower (effectiveFilename up.filename0)) up.content_type0
  · rw [analyze_image { env with insertRaises := b₁ } up himg,
      analyze_image { env with insertRaises := b₂ } up himg]
    rw [analyzeWithPayload_reply_insensitive env b₁,
      analyzeWithPayload_reply_insensitive env b₂]
  · rw [Bool.not_eq_true] at himg
    cases hext :
        extract_text_from_file_bytes (effectiveFilename up.filename0) up.raw with
    | error msg =>
        rw [analyze_text_err { env with insertRaises := b₁ } up msg himg hext,
          analyze_text_err { env with insertRaises := b₂ } up msg himg hext]
    | ok t =>
        rw [analyze_text_ok { env with insertRaises := b₁ } up t himg hext,
          analyze_text_ok { env with insertRaises := b₂ } up t himg hext]
        rw [analyzeWithPayload_reply_insensitive env b₁,
          analyzeWithPayload_reply_insensitive env b₂]

/-! ### C8 — unsupported format rejection -/

/-- C8: an upload that is not classified as an image and whose lowered
filename ends in none of `.pdf`, `.docx`, `.txt` is rejected as a client
error (HTTP 400) carrying the remediation message, with nothing persisted
and the evaluator never called. -/
theorem unsupported_format_spec (env : AnalyzeEnv) (up : Upload)
    (himg : is_image (pyLower (effectiveFilename up.filename0)) up.content_type0 = false)
    (hpdf : pyEndsWith (pyLower (effectiveFilename up.filename0)) ".pdf" = false)
    (hdocx : pyEndsWith (pyLower (effectiveFilename up.filename0)) ".docx" = false)
    (htxt : pyEndsWith (pyLower (effectiveFilename up.filename0)) ".txt" = false) :
    analyze env up =
      { reply := ⟨[("error", JsonVal.str unsupportedMsg)], 400⟩, saved := none
        evalCall := none }
    ∧ unsupportedMsg = "Unsupported document type. Please upload PDF, DOCX, or TXT." := by
  have hnat : naturalText (pyLower (effectiveFilename up.filename0)) up.raw = none := by
    unfold naturalText
    simp [hpdf, hdocx, htxt]
  have hext : extract_text_from_file_bytes (effectiveFilename up.filename0) up.raw =
      Except.error unsupportedMsg := by
    unfold extract_text_from_file_bytes
    rw [hnat]
  exact ⟨analyze_text_err env up _ himg hext, rfl⟩

/-- The upload `notes.xyz` with no image MIME. -/
def upXyz : Upload :=
  { filename0 := "notes.xyz", content_type0 := "application/octet-stream"
    fileBytes := [1]
    raw := { asPdfPages := [], asDocxParas := [], asTxt := "irrelevant" } }

theorem unsupported_format_spec_witness :
    analyze envFull upXyz =
      { reply := ⟨[("error", JsonVal.str unsupportedMsg)], 400⟩, saved := none
        evalCall := none } :=
  (unsupported_format_spec envFull upXyz (by decide) (by decide) (by decide)
    (by decide)).1

/-! ### C9 — images bypass the NoContent check, even zero-byte ones -/

/-- C9: when an image payload is supplied (`image_bytes` is not `None`) the
builder's no-content test can never fire — it tests `image_bytes is None`,
not emptiness — so for any byte string, including the empty one, the
request proceeds to the external model invocation; and an image-classified
upload always reaches the evaluator call with its raw bytes. -/
theorem image_bypasses_nocontent (env : AnalyzeEnv) (up : Upload)
    (t : Option String) (m : Option String)
    (hclient : env.gemini.clientInitialized = true)
    (hcls : is_image (pyLower (effectiveFilename up.filename0)) up.content_type0 = true) :
    evaluate_textbook_gemini env.gemini t (some up.fileBytes) m =
      invokeModel env.gemini (build_contents t (some up.fileBytes) m)
    ∧ (analyze env up).evalCall =
        some ⟨"", some up.fileBytes,
              some (if pyStartsWith up.content_type0 "image/" then up.content_type0
                    else "image/jpeg")⟩ := by
  constructor
  · unfold evaluate_textbook_gemini
    simp [hclient]
  · rw [analyze_image env up hcls]
    exact analyzeWithPayload_evalCall env _ _ none (some up.fileBytes) _

/-- A zero-byte camera upload declared as `image/png`. -/
def upEmptyImage : Upload :=
  { filename0 := "page.png", content_type0 := "image/png", fileBytes := []
    raw := { asPdfPages := [], asDocxParas := [], asTxt := "" } }

theorem image_bypasses_nocontent_witness :
    evaluate_textbook_gemini envFull.gemini (some "") (some ([] : List Nat))
        (some "image/png") =
      invokeModel envFull.gemini
        (build_contents (some "") (some ([] : List Nat)) (some "image/png"))
    ∧ (analyze envFull upEmptyImage).evalCall =
        some ⟨"", some [], some (if pyStartsWith "image/png" "image/" then "image/png"
                                 else "image/jpeg")⟩ :=
  image_bypasses_nocontent envFull upEmptyImage (some "") (some "image/png") rfl
    (by decide)

/-! ### C10 — filename handling is case-insensitive -/

/-- A record with the filename-derived field blanked, for comparing saved
records of same-named uploads. -/
def stripName (d : EvalDoc) : EvalDoc := { d with original_filename := "" }

theorem analyzeWithPayload_filename (env : AnalyzeEnv) (fn fn' ct : String)
    (tc : Option String) (ib : Option (List Nat)) (im : Option String) :
    (analyzeWithPayload env fn' ct tc ib im).reply =
      (analyzeWithPayload env fn ct tc ib im).reply
    ∧ (analyzeWithPayload env fn' ct tc ib im).evalCall =
        (analyzeWithPayload env fn ct tc ib im).evalCall
    ∧ (analyzeWithPayload env fn' ct tc ib im).saved.map stripName =
        (analyzeWithPayload env fn ct tc ib im).saved.map stripName := by
  unfold analyzeWithPayload
  by_cases h :
      jHasKey (evaluate_textbook_gemini env.gemini (some (tc.getD "")) ib im) "error"
  · simp [h]
  · cases hir : env.insertRaises <;> simp [h, hir, mkEvalDoc, stripName]

/-- C10: classification and extraction depend on the filename only through
its lowercasing — two uploads identical except for filename case produce
the same reply, the same evaluator call, and the same persisted record up
to the stored `original_filename`. -/
theorem lowercase_classification_spec (env : AnalyzeEnv) (up : Upload)
    (f' : String) (h0 : up.filename0 ≠ "") (h1 : f' ≠ "")
    (hl : pyLower f' = pyLower up.filename0) :
    (analyze env { up with filename0 := f' }).reply = (analyze env up).reply
    ∧ (analyze env { up with filename0 := f' }).evalCall =
        (analyze env up).evalCall
    ∧ (analyze env { up with filename0 := f' }).saved.map stripName =
        (analyze env up).saved.map stripName := by
  have heff : effectiveFilename up.filename0 = up.filename0 := if_neg h0
  have heff' : effectiveFilename f' = f' := if_neg h1
  have hleff : pyLower (effectiveFilename f') =
      pyLower (effectiveFilename up.filename0) := by rw [heff, heff', hl]
  by_cases himg :
      is_image (pyLower (effectiveFilename up.filename0)) up.content_type0
  · have himg' :
        is_image (pyLower (effectiveFilename ({ up with filename0 := f' } : Upload).filename0))
          ({ up with filename0 := f' } : Upload).content_type0 = true := by
      show is_image (pyLower (effectiveFilename f')) up.content_type0 = true
      rw [hleff]
      exact himg
    rw [analyze_image env { up with filename0 := f' } himg', analyze_image env up himg]
    exact analyzeWithPayload_filename env _ _ _ none (some up.fileBytes) _
  · rw [Bool.not_eq_true] at himg
    have himg' :
        is_image (pyLower (effectiveFilename ({ up with filename0 := f' } : Upload).filename0))
          ({ up with filename0 := f' } : Upload).content_type0 = false := by
      show is_image (pyLower (effectiveFilename f')) up.content_type0 = false
      rw [hleff]
      exact himg
    have hcongr :
        extract_text_from_file_bytes (effectiveFilename f') up.raw =
          extract_text_from_file_bytes (effectiveFilename up.filename0) up.raw :=
      extract_congr up.raw hleff
    cases hext :
        extract_text_from_file_bytes (effectiveFilename up.filename0) up.raw with
    | error msg =>
        rw [analyze_text_err env { up with filename0 := f' } msg himg'
            (by exact hcongr.trans hext),
          analyze_text_err env up msg himg hext]
        exact ⟨rfl, rfl, rfl⟩
    | ok t =>
        rw [analyze_text_ok env { up with filename0 := f' } t himg'
            (by exact hcongr.trans hext),
          analyze_text_ok env up t himg hext]
        exact analyzeWithPayload_filename env _ _ _ (some t) none none

/-- A one-page PDF upload named in lowercase. -/
def upReport : Upload :=
  { filename0 := "report.pdf", content_type0 := "application/pdf"
    fileBytes := [9]
    raw := { asPdfPages := [PageResult.returns (some "Hi")], asDocxParas := []
             asTxt := "" } }

/-! ### C5 — history query: limit, order, projection -/

theorem insertTsDesc_perm (d : EvalDoc) (l : List EvalDoc) :
    (insertTsDesc d l).Perm (d :: l) := by
  induction l with
  | nil => exact List.Perm.refl _
  | cons e es ih =>
      unfold insertTsDesc
      by_cases h : e.timestamp < d.timestamp
      · rw [if_pos h]
      · rw [if_neg h]
        exact (List.Perm.cons e ih).trans (List.Perm.swap d e es)

theorem insertTsDesc_sorted (d : EvalDoc) (l : List EvalDoc)
    (h : l.Pairwise (fun a b => b.timestamp ≤ a.timestamp)) :
    (insertTsDesc d l).Pairwise (fun a b => b.timestamp ≤ a.timestamp) := by
  induction l with
  | nil => simp [insertTsDesc]
  | cons e es ih =>
      rw [List.pairwise_cons] at h
      obtain ⟨he, hes⟩ := h
      unfold insertTsDesc
      by_cases hc : e.timestamp < d.timestamp
      · rw [if_pos hc, List.pairwise_cons]
        refine ⟨?_, List.pairwise_cons.mpr ⟨he, hes⟩⟩
        intro b hb
        rcases List.mem_cons.mp hb with hb | hb
        · rw [hb]; exact Nat.le_of_lt hc
        · exact Nat.le_trans (he b hb) (Nat.le_of_lt hc)
      · rw [if_neg hc, List.pairwise_cons]
        refine ⟨?_, ih hes⟩
        intro b hb
        have hb' := (insertTsDesc_perm d es).mem_iff.mp hb
        rcases List.mem_cons.mp hb' with hb' | hb'
        · rw [hb']; exact Nat.le_of_not_lt hc
        · exact he b hb'

theorem sortTsDesc_perm (l : List EvalDoc) : (sortTsDesc l).Perm l := by
  induction l with
  | nil => exact List.Perm.refl _
  | cons e es ih =>
      exact (insertTsDesc_perm e (sortTsDesc es)).trans (List.Perm.cons e ih)

theorem sortTsDesc_sorted (l : List EvalDoc) :
    (sortTsDesc l).Pairwise (fun a b => b.timestamp ≤ a.timestamp) := by
  induction l with
  | nil => simp [sortTsDesc]
  | cons e es ih => exact insertTsDesc_sorted e (sortTsDesc es) ih

/-- C5: `user_history` returns at most 50 entries, in descending timestamp
order (strictly descending whenever the user's records carry pairwise
distinct timestamps), and every entry is the four-field projection
`histProj` of one of that user's records in the store. -/
theorem user_history_spec (store : List EvalDoc) (uid : String) :
    (user_history store uid).length ≤ 50
    ∧ (user_history store uid).Pairwise (fun a b => b.timestamp ≤ a.timestamp)
    ∧ ((store.filter (fun d => d.user_id = uid)).Pairwise
         (fun a b => a.timestamp ≠ b.timestamp) →
       (user_history store uid).Pairwise (fun a b => b.timestamp < a.timestamp))
    ∧ ∀ e ∈ user_history store uid, ∃ d ∈ store, d.user_id = uid ∧ e = histProj d := by
  refine ⟨?_, ?_, ?_, ?_⟩
  · unfold user_history
    rw [List.length_map, List.length_take]
    exact min_le_left _ _
  · unfold user_history
    rw [List.pairwise_map]
    exact List.Pairwise.sublist (List.take_sublist _ _)
      (sortTsDesc_sorted (store.filter (fun d => d.user_id = uid)))
  · intro hdist
    have hperm := sortTsDesc_perm (store.filter (fun d => d.user_id = uid))
    have hne : (sortTsDesc (store.filter (fun d => d.user_id = uid))).Pairwise
        (fun a b => a.timestamp ≠ b.timestamp) :=
      (List.Perm.pairwise_iff (fun h => h.symm) hperm).mpr hdist
    have hstrict : (sortTsDesc (store.filter (fun d => d.user_id = uid))).Pairwise
        (fun a b => b.timestamp < a.timestamp) :=
      ((sortTsDesc_sorted _).and hne).imp
        (fun hab => lt_of_le_of_ne hab.1 (Ne.symm hab.2))
    unfold user_history
    rw [List.pairwise_map]
    exact List.Pairwise.sublist (List.take_sublist _ _) hstrict
  · intro e he
    unfold user_history at he
    rw [List.mem_map] at he
    obtain ⟨d, hd, hfd⟩ := he
    have hd2 : d ∈ sortTsDesc (store.filter (fun d => d.user_id = uid)) :=
      List.take_subset _ _ hd
    have hd3 : d ∈ store.filter (fun d => d.user_id = uid) :=
      (sortTsDesc_perm _).mem_iff.mp hd2
    rw [List.mem_filter] at hd3
    exact ⟨d, hd3.1, of_decide_eq_true hd3.2, hfd.symm⟩

/-- A minimal record for history-query witnesses. -/
def sampleDoc (u : String) (ts : Nat) : EvalDoc :=
  { user_id := u, username := "w", timestamp := ts, input_type := "document"
    file_id := 0, original_filename := "a.txt", content_type := ""
    accuracy_score := JsonVal.null, readability_score := JsonVal.null
    consistency_score := JsonVal.null, accuracy_text := JsonVal.str ""
    readability_text := JsonVal.str "", consistency_text := JsonVal.str ""
    overall_rating_value := JsonVal.null, overall_rating := "No rating"
    summary := JsonVal.str "", full_extracted_text := none
    raw_evaluation := [] }

theorem user_history_spec_witness :
    (user_history [sampleDoc "u" 1, sampleDoc "u" 2, sampleDoc "v" 9] "u").length ≤ 50
    ∧ (user_history [sampleDoc "u" 1, sampleDoc "u" 2, sampleDoc "v" 9] "u").Pairwise
        (fun a b => b.timestamp < a.timestamp) :=
  ⟨(user_history_spec [sampleDoc "u" 1, sampleDoc "u" 2, sampleDoc "v" 9] "u").1,
   (user_history_spec [sampleDoc "u" 1, sampleDoc "u" 2, sampleDoc "v" 9] "u").2.2.1
     (by decide)⟩

/-! ### C6 — overall-rating display derivation -/

/-- C6: for every persisted record, its display string is derived from the
evaluator's `overall_rating`: `"<value>/5"` for a numeric value, the
value's own string form for a string, `"No rating"` when absent or null;
and the persisted numeric value is the raw `overall_rating`. -/
theorem overall_rating_display_spec (env : AnalyzeEnv) (up : Upload) (d : EvalDoc)
    (h : (analyze env up).saved = some d) :
    d.overall_rating =
      (match jGetD d.raw_evaluation "overall_rating" JsonVal.null with
       | JsonVal.num lit => lit ++ "/5"
       | JsonVal.str s => s
       | JsonVal.null => "No rating")
    ∧ d.overall_rating_value = jGetD d.raw_evaluation "overall_rating" JsonVal.null := by
  have key :
      d.overall_rating = overallStr (jGetD d.raw_evaluation "overall_rating" JsonVal.null)
      ∧ d.overall_rating_value = jGetD d.raw_evaluation "overall_rating" JsonVal.null := by
    by_cases himg :
        is_image (pyLower (effectiveFilename up.filename0)) up.content_type0
    · rw [analyze_image env up himg] at h
      exact analyzeWithPayload_saved env _ _ none (some up.fileBytes) _ d h
    · rw [Bool.not_eq_true] at himg
      cases hext :
          extract_text_from_file_bytes (effectiveFilename up.filename0) up.raw with
      | error msg =>
          rw [analyze_text_err env up msg himg hext] at h
          exact absurd h (by simp)
      | ok t =>
          rw [analyze_text_ok env up t himg hext] at h
          exact analyzeWithPayload_saved env _ _ (some t) none none d h
  refine ⟨?_, key.2⟩
  rw [key.1]
  cases jGetD d.raw_evaluation "overall_rating" JsonVal.null <;> rfl

/-- The record persisted for the spec's mocked full-schema scenario. -/
def docFull42 : EvalDoc :=
  { user_id := "u1", username := "alice", timestamp := 7, input_type := "document"
    file_id := 3, original_filename := "notes.txt", content_type := "text/plain"
    accuracy_score := JsonVal.num "90", readability_score := JsonVal.num "80"
    consistency_score := JsonVal.num "85", accuracy_text := JsonVal.str "ok"
    readability_text := JsonVal.str "ok", consistency_text := JsonVal.str "ok"
    overall_rating_value := JsonVal.num "4.2", overall_rating := "4.2/5"
    summary := JsonVal.str "Good.", full_extracted_text := some "Hello"
    raw_evaluation := objFull }

theorem overall_rating_display_spec_witness :
    (analyze envFull upHello).saved = some docFull42
    ∧ docFull42.overall_rating =
        (match jGetD docFull42.raw_evaluation "overall_rating" JsonVal.null with
         | JsonVal.num lit => lit ++ "/5"
         | JsonVal.str s => s
         | JsonVal.null => "No rating")
    ∧ docFull42.overall_rating = "4.2/5"
    ∧ docFull42.overall_rating_value = JsonVal.num "4.2" :=
  ⟨by decide,
   (overall_rating_display_spec envFull upHello docFull42 (by decide)).1,
   rfl, rfl⟩

theorem lowercase_classification_spec_witness :
    pyLower "REPORT.PDF" = pyLower "report.pdf"
    ∧ ((analyze envFull { upReport with filename0 := "REPORT.PDF" }).reply =
         (analyze envFull upReport).reply
       ∧ (analyze envFull { upReport with filename0 := "REPORT.PDF" }).evalCall =
           (analyze envFull upReport).evalCall
       ∧ (analyze envFull { upReport with filename0 := "REPORT.PDF" }).saved.map stripName =
           (analyze envFull upReport).saved.map stripName) :=
  ⟨by decide,
   lowercase_classification_spec envFull upReport "REPORT.PDF" (by decide)
     (by decide) (by decide)⟩

end TBQA
